import Mathlib

/-!
Shallow embedding of `src/esp32_powermeter_mqtt/esp32_powermeter_mqtt.ino`.

The sketch measures the interval between falling edges of a pulse-output
power meter inside an interrupt routine `isr`, derives instantaneous power,
accumulates a window power sum and a cumulative kWh total, and once per
reporting window the main `loop` publishes the window average and the kWh
total over MQTT and zeroes the accumulators.  An MQTT `callback` handles the
single-byte commands `c` (clear kWh) and `r` (restart).

`double` arithmetic is modelled over `ℚ` (the source values stay well within
exact-representation concerns for the properties below; where IEEE
non-finiteness matters, at the unguarded division `dTotalW / uiIsrCount`
with a zero divisor, the model makes it explicit with an `Option`).
`unsigned int` / `unsigned long` (32-bit on the ESP32) are modelled as `ℕ`
with explicit reduction mod `2 ^ 32` where the source can wrap.
-/

/-- 32-bit unsigned subtraction `a - b`, as in `millis() - ulStartTime`
on the ESP32 (where `unsigned long` is 32 bits). -/
def usub32 (a b : ℕ) : ℕ :=
  (a % 2 ^ 32 + 2 ^ 32 - b % 2 ^ 32) % 2 ^ 32

/-- `#define HOUR 3600.0` (line 23). -/
def HOUR : ℚ := 3600

/-- `#define PULSES_KWH_RES 1.0` (line 24): pulses-per-kWh calibration. -/
def PULSES_KWH_RES : ℚ := 1

/-- `#define SECOND_ISR_PERIOD 0.09` (line 25): debounce threshold in s. -/
def SECOND_ISR_PERIOD : ℚ := 9 / 100

/-- `#define MAX_POWER 7040` (line 26): plausibility ceiling in W. -/
def MAX_POWER : ℚ := 7040

/-- `const unsigned int uiUpdate = 60` (line 29): reporting window in s. -/
def uiUpdate : ℕ := 60

/-- The shared mutable globals of the sketch (lines 51-58). -/
structure MeterState where
  dPulsePeriod : ℚ
  dPower : ℚ
  ulStartTime : ℕ
  dKWh : ℚ
  uiIsrCount : ℕ
  dTotalW : ℚ
  ulPreviousMillis : ℕ
  deriving DecidableEq, Repr

/-- All globals are zero-initialised; `setup()` (lines 163-164) sets
`ulStartTime = millis()` and `ulPreviousMillis = ulStartTime`, so this is
the state right after a boot at `millis() = 0`. -/
def initState : MeterState :=
  { dPulsePeriod := 0, dPower := 0, ulStartTime := 0, dKWh := 0,
    uiIsrCount := 0, dTotalW := 0, ulPreviousMillis := 0 }

/-- Line 71: `dPulsePeriod = (double)(millis() - ulStartTime) / 1000.0`,
the measured interval in seconds, with `now` the value of `millis()`. -/
def pulsePeriod (now : ℕ) (s : MeterState) : ℚ :=
  (usub32 now s.ulStartTime : ℚ) / 1000

/-- Line 84: `dPower = (PULSES_KWH_RES / (double)dPulsePeriod) * HOUR`. -/
def rawPower (i : ℚ) : ℚ :=
  (PULSES_KWH_RES / i) * HOUR

/-- Lines 87-91: `if (dPower > MAX_POWER) dPower = 0.0`. -/
def clampPower (p : ℚ) : ℚ :=
  if p > MAX_POWER then 0 else p

/-- The interrupt routine `isr` (lines 66-101), as a function of the
current `millis()` value and the shared state.  Note that the source never
writes `ulStartTime` inside `isr`: the field is carried over unchanged in
both branches. -/
def isr (now : ℕ) (s : MeterState) : MeterState :=
  if pulsePeriod now s ≤ SECOND_ISR_PERIOD then
    { s with dPulsePeriod := 0 }
  else
    { s with
      dPulsePeriod := pulsePeriod now s,
      uiIsrCount := (s.uiIsrCount + 1) % 2 ^ 32,
      dPower := clampPower (rawPower (pulsePeriod now s)),
      dTotalW := s.dTotalW + clampPower (rawPower (pulsePeriod now s)),
      dKWh := s.dKWh +
        (pulsePeriod now s / HOUR) *
          (clampPower (rawPower (pulsePeriod now s)) / 1000) }

/-- Result of the MQTT `callback` (lines 109-143): either the mutated
state, or a restart via `ESP.restart()`. -/
inductive CallbackResult where
  | normal (s : MeterState)
  | restart
  deriving DecidableEq, Repr

/-- The MQTT receiver `callback` (lines 109-143), as a function of the
first payload byte. `c` clears `dKWh`, `r` restarts, anything else falls
through the `if`/`else if` with no effect. -/
def callback (b : Char) (s : MeterState) : CallbackResult :=
  if b = 'c' then CallbackResult.normal { s with dKWh := 0 }
  else if b = 'r' then CallbackResult.restart
  else CallbackResult.normal s

/-- Line 282: `dPower = dTotalW / uiIsrCount`.  The division is performed
unconditionally in the source; when `uiIsrCount = 0` the IEEE double
result is non-finite (NaN for `0.0/0`, ±∞ otherwise), a value with no
rational counterpart; the model returns `none` for it. -/
def windowAverage (s : MeterState) : Option ℚ :=
  if s.uiIsrCount = 0 then none else some (s.dTotalW / (s.uiIsrCount : ℚ))

/-- Lines 289-292: `dPower = 0.0; dTotalW = 0.0; uiIsrCount = 0; dKWh = 0.0`. -/
def drainReset (s : MeterState) : MeterState :=
  { s with dPower := 0, dTotalW := 0, uiIsrCount := 0, dKWh := 0 }

/-- The measurement part of one `loop()` iteration (lines 274-293), as a
function of the current `millis()` value: if the reporting window has
elapsed, publish `(average watts, kWh)` (returned as `some report`) and
reset the accumulators, else do nothing. -/
def loopTick (now : ℕ) (s : MeterState) : Option (Option ℚ × ℚ) × MeterState :=
  if uiUpdate * 1000 ≤ usub32 now s.ulPreviousMillis then
    (some (windowAverage s, s.dKWh), { drainReset s with ulPreviousMillis := now })
  else
    (none, s)

/-- A system state for interleaving traces: the shared globals plus the
list of `(watts, kWh)` reports published so far. -/
structure SysState where
  meter : MeterState
  reports : List (Option ℚ × ℚ)
  deriving DecidableEq, Repr

/-- Atomic events of the two execution contexts.  `pulse` is one run of
`isr` (the interrupt context cannot be preempted by the main loop); the
drain in `loop()` (lines 282-292) is a sequence of separate main-context
steps, each of which an interrupt may precede or follow: the
compute-average-and-publish step (lines 282-286) and the four reset
assignments (lines 289-292). -/
inductive Ev where
  | pulse (now : ℕ)
  | drainPublish
  | drainResetPower
  | drainResetTotalW
  | drainResetCount
  | drainResetKWh
  deriving DecidableEq, Repr

/-- One event's effect on the system state.  In `drainPublish`, line 282
stores the average into `dPower`; in the `uiIsrCount = 0` case the stored
IEEE value is non-finite (see `windowAverage`), so the model leaves
`dPower` as-is there — the value is overwritten by `drainResetPower`
and never read in between. -/
def stepEv : Ev → SysState → SysState
  | Ev.pulse now, ts => { ts with meter := isr now ts.meter }
  | Ev.drainPublish, ts =>
      { meter := { ts.meter with
          dPower := (windowAverage ts.meter).getD ts.meter.dPower },
        reports := ts.reports ++ [(windowAverage ts.meter, ts.meter.dKWh)] }
  | Ev.drainResetPower, ts => { ts with meter := { ts.meter with dPower := 0 } }
  | Ev.drainResetTotalW, ts => { ts with meter := { ts.meter with dTotalW := 0 } }
  | Ev.drainResetCount, ts => { ts with meter := { ts.meter with uiIsrCount := 0 } }
  | Ev.drainResetKWh, ts => { ts with meter := { ts.meter with dKWh := 0 } }

/-- Run a list of events from a system state. -/
def runEvents (es : List Ev) (ts : SysState) : SysState :=
  es.foldl (fun a e => stepEv e a) ts

/-- The nonnegativity invariants of the accumulator fields claimed by the
spec (`sampleCount`, `totalPowerSum`, `cumulativeEnergy`). -/
def AccumInv (s : MeterState) : Prop :=
  0 ≤ (s.uiIsrCount : ℤ) ∧ 0 ≤ s.dTotalW ∧ 0 ≤ s.dKWh

instance (s : MeterState) : Decidable (AccumInv s) := by
  unfold AccumInv; infer_instance

/-- The measured interval is a cast natural over 1000, hence nonnegative. -/
theorem pulsePeriod_nonneg (now : ℕ) (s : MeterState) :
    0 ≤ pulsePeriod now s := by
  unfold pulsePeriod
  positivity

/-- `rawPower` of a nonnegative interval is nonnegative. -/
theorem rawPower_nonneg (i : ℚ) (h : 0 ≤ i) : 0 ≤ rawPower i := by
  unfold rawPower PULSES_KWH_RES HOUR
  positivity

/-- Clamping preserves nonnegativity. -/
theorem clampPower_nonneg (p : ℚ) (h : 0 ≤ p) : 0 ≤ clampPower p := by
  unfold clampPower
  split
  · exact le_refl 0
  · exact h

/-- C1: the claim states that `isr` sets `lastEdgeTimestamp` (`ulStartTime`)
to the current time on every accepted edge, so intervals are measured from
the previous accepted edge.  The source never writes `ulStartTime` inside
`isr` (it is written only in `setup()`, line 163), so every interval is
measured from process start: after accepted edges at `millis() = 1000` and
`millis() = 2000`, the second measured interval is 2 s (from start), not
1 s (from the previous accepted edge). -/
theorem lastEdge_never_updated :
    (∀ (now : ℕ) (s : MeterState), (isr now s).ulStartTime = s.ulStartTime) ∧
    SECOND_ISR_PERIOD < pulsePeriod 1000 initState ∧
    (isr 1000 initState).dPulsePeriod = 1 ∧
    (isr 1000 initState).ulStartTime = 0 ∧
    (isr 2000 (isr 1000 initState)).dPulsePeriod = 2 ∧
    (isr 2000 (isr 1000 initState)).ulStartTime = 0 := by
  refine ⟨?_, ?_, ?_, ?_, ?_, ?_⟩
  · intro now s
    unfold isr
    split <;> rfl
  all_goals
    norm_num [isr, initState, pulsePeriod, usub32, SECOND_ISR_PERIOD, rawPower,
      clampPower, PULSES_KWH_RES, HOUR, MAX_POWER]

/-- C2: the claim states that a window boundary with `sampleCount = 0`
publishes an average of exactly 0 and that `totalPowerSum / sampleCount`
is never performed with a zero divisor.  Line 282 performs
`dPower = dTotalW / uiIsrCount` unconditionally: at a boundary with
`uiIsrCount = 0` the divisor is zero and the published average is the
non-finite IEEE result (`none` in this model), not 0. -/
theorem drain_zero_count_divides_by_zero :
    initState.uiIsrCount = 0 ∧
    uiUpdate * 1000 ≤ usub32 60000 initState.ulPreviousMillis ∧
    windowAverage initState = none ∧
    (loopTick 60000 initState).1 = some (none, 0) ∧
    (loopTick 60000 initState).1 ≠ some (some 0, 0) := by
  have hpub : (loopTick 60000 initState).1 = some (none, 0) := by
    norm_num [loopTick, initState, usub32, uiUpdate, windowAverage, drainReset]
  refine ⟨rfl, by norm_num [initState, usub32, uiUpdate],
    by norm_num [windowAverage, initState], hpub, ?_⟩
  rw [hpub]
  simp

/-- C3: at every reporting-window boundary the published report is built
from the pre-drain values (`windowAverage` of the pre-drain count and sum,
and the pre-drain `dKWh`), and the post-drain state has `uiIsrCount`,
`dTotalW` and `dKWh` all reset to zero in the same drain. -/
theorem loopTick_drain_pre_values (now : ℕ) (s : MeterState)
    (hb : uiUpdate * 1000 ≤ usub32 now s.ulPreviousMillis) :
    (loopTick now s).1 = some (windowAverage s, s.dKWh) ∧
    (loopTick now s).2.uiIsrCount = 0 ∧
    (loopTick now s).2.dTotalW = 0 ∧
    (loopTick now s).2.dKWh = 0 := by
  simp [loopTick, drainReset, hb]

/-- Witness for `loopTick_drain_pre_values` at the window boundary
`millis() = 60000` from the boot state. -/
theorem loopTick_drain_pre_values_witness :
    uiUpdate * 1000 ≤ usub32 60000 initState.ulPreviousMillis ∧
    ((loopTick 60000 initState).1 = some (windowAverage initState, initState.dKWh) ∧
     (loopTick 60000 initState).2.uiIsrCount = 0 ∧
     (loopTick 60000 initState).2.dTotalW = 0 ∧
     (loopTick 60000 initState).2.dKWh = 0) :=
  ⟨by norm_num [initState, usub32, uiUpdate],
   loopTick_drain_pre_values 60000 initState (by norm_num [initState, usub32, uiUpdate])⟩

/-- C4: an edge whose measured interval is at most `SECOND_ISR_PERIOD`
(0.09 s) is discarded: `uiIsrCount`, `dTotalW` and `dKWh` are unchanged. -/
theorem isr_debounce_no_accumulate (now : ℕ) (s : MeterState)
    (h : pulsePeriod now s ≤ SECOND_ISR_PERIOD) :
    (isr now s).uiIsrCount = s.uiIsrCount ∧
    (isr now s).dTotalW = s.dTotalW ∧
    (isr now s).dKWh = s.dKWh := by
  unfold isr
  rw [if_pos h]
  exact ⟨rfl, rfl, rfl⟩

/-- Witness for `isr_debounce_no_accumulate`: an edge 50 ms after boot
(interval 0.05 s, below the 0.09 s threshold). -/
theorem isr_debounce_no_accumulate_witness :
    pulsePeriod 50 initState ≤ SECOND_ISR_PERIOD ∧
    ((isr 50 initState).uiIsrCount = initState.uiIsrCount ∧
     (isr 50 initState).dTotalW = initState.dTotalW ∧
     (isr 50 initState).dKWh = initState.dKWh) :=
  ⟨by norm_num [pulsePeriod, initState, usub32, SECOND_ISR_PERIOD],
   isr_debounce_no_accumulate 50 initState
     (by norm_num [pulsePeriod, initState, usub32, SECOND_ISR_PERIOD])⟩

/-- C5: on an accepted edge the derived instantaneous power is
`rawPower i = (PULSES_KWH_RES / i) * HOUR`; `uiIsrCount` is incremented in
every accepted case, and when the derived power exceeds `MAX_POWER` the
stored power is clamped to 0 and the sample contributes exactly 0 to
`dTotalW` and `dKWh`. -/
theorem isr_power_clamp (now : ℕ) (s : MeterState)
    (hacc : SECOND_ISR_PERIOD < pulsePeriod now s) :
    (isr now s).uiIsrCount = (s.uiIsrCount + 1) % 2 ^ 32 ∧
    (rawPower (pulsePeriod now s) ≤ MAX_POWER →
      (isr now s).dPower = rawPower (pulsePeriod now s)) ∧
    (MAX_POWER < rawPower (pulsePeriod now s) →
      (isr now s).dPower = 0 ∧
      (isr now s).dTotalW = s.dTotalW ∧
      (isr now s).dKWh = s.dKWh) := by
  unfold isr
  rw [if_neg (not_le.mpr hacc)]
  refine ⟨rfl, ?_, ?_⟩
  · intro hle
    show clampPower (rawPower (pulsePeriod now s)) = rawPower (pulsePeriod now s)
    unfold clampPower
    rw [if_neg (not_lt.mpr hle)]
  · intro hgt
    have hc : clampPower (rawPower (pulsePeriod now s)) = 0 := by
      unfold clampPower
      rw [if_pos hgt]
    refine ⟨hc, ?_, ?_⟩
    · show s.dTotalW + clampPower (rawPower (pulsePeriod now s)) = s.dTotalW
      rw [hc, add_zero]
    · show s.dKWh + (pulsePeriod now s / HOUR) *
        (clampPower (rawPower (pulsePeriod now s)) / 1000) = s.dKWh
      rw [hc]
      ring

/-- Witness for `isr_power_clamp`: an edge 450 ms after boot gives an
interval of 0.45 s, hence a derived power of 8000 W, above the 7040 W
ceiling. -/
theorem isr_power_clamp_witness :
    SECOND_ISR_PERIOD < pulsePeriod 450 initState ∧
    ((isr 450 initState).uiIsrCount = (initState.uiIsrCount + 1) % 2 ^ 32 ∧
     (rawPower (pulsePeriod 450 initState) ≤ MAX_POWER →
       (isr 450 initState).dPower = rawPower (pulsePeriod 450 initState)) ∧
     (MAX_POWER < rawPower (pulsePeriod 450 initState) →
       (isr 450 initState).dPower = 0 ∧
       (isr 450 initState).dTotalW = initState.dTotalW ∧
       (isr 450 initState).dKWh = initState.dKWh)) :=
  ⟨by norm_num [pulsePeriod, initState, usub32, SECOND_ISR_PERIOD],
   isr_power_clamp 450 initState
     (by norm_num [pulsePeriod, initState, usub32, SECOND_ISR_PERIOD])⟩

/-- C6: on every accepted edge `uiIsrCount` increases by exactly one (mod
the 32-bit width), `dTotalW` by the (clamped) instantaneous power, and
`dKWh` by `(interval / HOUR) * (power / 1000)`; the remaining accumulator
fields `ulStartTime` and `ulPreviousMillis` are unchanged. -/
theorem isr_accept_update (now : ℕ) (s : MeterState)
    (hacc : SECOND_ISR_PERIOD < pulsePeriod now s) :
    (isr now s).uiIsrCount = (s.uiIsrCount + 1) % 2 ^ 32 ∧
    (isr now s).dTotalW = s.dTotalW + clampPower (rawPower (pulsePeriod now s)) ∧
    (isr now s).dKWh = s.dKWh + (pulsePeriod now s / HOUR) *
      (clampPower (rawPower (pulsePeriod now s)) / 1000) ∧
    (isr now s).ulStartTime = s.ulStartTime ∧
    (isr now s).ulPreviousMillis = s.ulPreviousMillis := by
  unfold isr
  rw [if_neg (not_le.mpr hacc)]
  exact ⟨rfl, rfl, rfl, rfl, rfl⟩

/-- Witness for `isr_accept_update`: an accepted edge 1000 ms after boot. -/
theorem isr_accept_update_witness :
    SECOND_ISR_PERIOD < pulsePeriod 1000 initState ∧
    ((isr 1000 initState).uiIsrCount = (initState.uiIsrCount + 1) % 2 ^ 32 ∧
     (isr 1000 initState).dTotalW = initState.dTotalW +
       clampPower (rawPower (pulsePeriod 1000 initState)) ∧
     (isr 1000 initState).dKWh = initState.dKWh + (pulsePeriod 1000 initState / HOUR) *
       (clampPower (rawPower (pulsePeriod 1000 initState)) / 1000) ∧
     (isr 1000 initState).ulStartTime = initState.ulStartTime ∧
     (isr 1000 initState).ulPreviousMillis = initState.ulPreviousMillis) :=
  ⟨by norm_num [pulsePeriod, initState, usub32, SECOND_ISR_PERIOD],
   isr_accept_update 1000 initState
     (by norm_num [pulsePeriod, initState, usub32, SECOND_ISR_PERIOD])⟩

/-- C7: the command byte `c` zeroes `dKWh` and leaves every other field
unchanged (expressed by the structure update), and any byte other than
`c` and `r` leaves the whole state unchanged and falls through without
error. -/
theorem callback_cmd_effects (s : MeterState) (b : Char)
    (hc : b ≠ 'c') (hr : b ≠ 'r') :
    callback 'c' s = CallbackResult.normal { s with dKWh := 0 } ∧
    callback b s = CallbackResult.normal s := by
  constructor
  · unfold callback
    rw [if_pos rfl]
  · unfold callback
    rw [if_neg hc, if_neg hr]

/-- Witness for `callback_cmd_effects` with the unknown command byte `x`. -/
theorem callback_cmd_effects_witness :
    ('x' ≠ 'c') ∧ ('x' ≠ 'r') ∧
    (callback 'c' initState = CallbackResult.normal { initState with dKWh := 0 } ∧
     callback 'x' initState = CallbackResult.normal initState) :=
  ⟨by decide, by decide, callback_cmd_effects initState 'x' (by decide) (by decide)⟩

/-- The interleaving used against C8: an accepted pulse, then the drain's
publish step, then another accepted pulse arriving before the drain's
reset assignments run. -/
def lostSampleTrace : List Ev :=
  [Ev.pulse 1000, Ev.drainPublish, Ev.pulse 2000,
   Ev.drainResetPower, Ev.drainResetTotalW, Ev.drainResetCount, Ev.drainResetKWh]

/-- C8: the claim states that under arbitrary interleaving of `isr` with
the main-loop drain no sample is lost or double-counted.  The drain
(lines 282-292) is a non-atomic sequence of main-context statements with
no interrupt masking: in the interleaving `lostSampleTrace`, two pulses
are accepted (`uiIsrCount` reaches 2 before the resets), yet the only
report published reflects a single sample (average 3600 W, 0.001 kWh) and
the post-drain state is completely zeroed — the second sample's 1800 W /
0.001 kWh contribution appears in no report and in no state, i.e. it is
lost. -/
theorem drain_interleaving_loses_sample :
    (runEvents [Ev.pulse 1000, Ev.drainPublish, Ev.pulse 2000]
      ⟨initState, []⟩).meter.uiIsrCount = 2 ∧
    (runEvents lostSampleTrace ⟨initState, []⟩).reports = [(some 3600, 1 / 1000)] ∧
    (runEvents lostSampleTrace ⟨initState, []⟩).meter.uiIsrCount = 0 ∧
    (runEvents lostSampleTrace ⟨initState, []⟩).meter.dTotalW = 0 ∧
    (runEvents lostSampleTrace ⟨initState, []⟩).meter.dKWh = 0 := by
  norm_num [lostSampleTrace, runEvents, stepEv, isr, initState, pulsePeriod, usub32,
    SECOND_ISR_PERIOD, rawPower, clampPower, PULSES_KWH_RES, HOUR, MAX_POWER, windowAverage]

/-- C9: the nonnegativity invariants on `uiIsrCount`, `dTotalW` and
`dKWh` hold in the boot state and are preserved by `isr` (accepted or
rejected edge), by a `loop` iteration (whether or not it drains), and by
any `callback` command that returns to normal execution. -/
theorem accumInv_preserved :
    AccumInv initState ∧
    (∀ (now : ℕ) (s : MeterState), AccumInv s → AccumInv (isr now s)) ∧
    (∀ (now : ℕ) (s : MeterState), AccumInv s → AccumInv (loopTick now s).2) ∧
    (∀ (b : Char) (s s' : MeterState), AccumInv s →
      callback b s = CallbackResult.normal s' → AccumInv s') := by
  refine ⟨by norm_num [AccumInv, initState], ?_, ?_, ?_⟩
  · intro now s h
    unfold isr
    split
    · exact h
    · refine ⟨Int.natCast_nonneg _, ?_, ?_⟩
      · exact add_nonneg h.2.1
          (clampPower_nonneg _ (rawPower_nonneg _ (pulsePeriod_nonneg now s)))
      · refine add_nonneg h.2.2 (mul_nonneg ?_ ?_)
        · exact div_nonneg (pulsePeriod_nonneg now s) (by norm_num [HOUR])
        · exact div_nonneg
            (clampPower_nonneg _ (rawPower_nonneg _ (pulsePeriod_nonneg now s)))
            (by norm_num)
  · intro now s h
    unfold loopTick
    split
    · exact ⟨Int.natCast_nonneg _, le_refl 0, le_refl 0⟩
    · exact h
  · intro b s s' h heq
    unfold callback at heq
    split_ifs at heq with h1 h2
    · rw [show s' = { s with dKWh := 0 } from ((CallbackResult.normal.injEq _ _).mp heq).symm]
      exact ⟨h.1, h.2.1, le_refl 0⟩
    · rw [show s' = s from ((CallbackResult.normal.injEq _ _).mp heq).symm]
      exact h

/-- Witness for `accumInv_preserved`: the invariant transported through an
accepted edge from the boot state. -/
theorem accumInv_preserved_witness : AccumInv (isr 1000 initState) :=
  accumInv_preserved.2.1 1000 initState accumInv_preserved.1

/-- C10: on an accepted edge whose derived power is not clamped, the
`dKWh` increment is exactly `PULSES_KWH_RES / 1000` kWh regardless of the
interval, since `(i / HOUR) * (((PULSES_KWH_RES / i) * HOUR) / 1000)`
cancels `i`. -/
theorem isr_energy_per_pulse (now : ℕ) (s : MeterState)
    (hacc : SECOND_ISR_PERIOD < pulsePeriod now s)
    (hple : rawPower (pulsePeriod now s) ≤ MAX_POWER) :
    (isr now s).dKWh = s.dKWh + PULSES_KWH_RES / 1000 := by
  have hpos : (0 : ℚ) < pulsePeriod now s :=
    lt_trans (by norm_num [SECOND_ISR_PERIOD]) hacc
  have hne : pulsePeriod now s ≠ 0 := ne_of_gt hpos
  unfold isr
  rw [if_neg (not_le.mpr hacc)]
  show s.dKWh + (pulsePeriod now s / HOUR) *
    (clampPower (rawPower (pulsePeriod now s)) / 1000) = s.dKWh + PULSES_KWH_RES / 1000
  have hc : clampPower (rawPower (pulsePeriod now s)) = rawPower (pulsePeriod now s) := by
    unfold clampPower
    rw [if_neg (not_lt.mpr hple)]
  rw [hc]
  unfold rawPower HOUR
  congr 1
  field_simp
  ring

/-- Witness for `isr_energy_per_pulse`: an accepted edge 1000 ms after
boot (interval 1 s, derived power 3600 W, below the ceiling) adds exactly
0.001 kWh. -/
theorem isr_energy_per_pulse_witness :
    SECOND_ISR_PERIOD < pulsePeriod 1000 initState ∧
    rawPower (pulsePeriod 1000 initState) ≤ MAX_POWER ∧
    (isr 1000 initState).dKWh = initState.dKWh + PULSES_KWH_RES / 1000 :=
  ⟨by norm_num [pulsePeriod, initState, usub32, SECOND_ISR_PERIOD],
   by norm_num [rawPower, pulsePeriod, initState, usub32, PULSES_KWH_RES, HOUR, MAX_POWER],
   isr_energy_per_pulse 1000 initState
     (by norm_num [pulsePeriod, initState, usub32, SECOND_ISR_PERIOD])
     (by norm_num [rawPower, pulsePeriod, initState, usub32, PULSES_KWH_RES, HOUR, MAX_POWER])⟩
